import Mathlib

/-!
Verification of the client-side session and state-consistency layer of the
ambica-bangles storefront: the `AuthService` (session manager, token store
helpers) and the `UserService` (profile/address cache manager).

The JavaScript source is embedded shallowly:

* `localStorage` / `sessionStorage` become the explicit `Storage` record;
  JSON round-trips through storage (`JSON.stringify` on write and
  `JSON.parse` on read of the same value) are elided, so storage holds the
  typed records directly.
* every `async` service method becomes a pure function of the current
  `Storage` plus the outcome returned by the backend gateway call the method
  awaits (`mockApiCall` / `authenticatedRequest`).  The gateway outcome is a
  parameter because the backend is an external collaborator; the concrete
  mock responses hard-coded in the source are embedded separately (e.g.
  `mockLoginResponse`) and can be passed in to evaluate the code as shipped.
* a thrown JavaScript `Error` becomes `Except.error` carrying the message;
  observable side channels (gateway calls, dispatched window events, forced
  navigation) are collected in a `Trace` value.
* `parseJwt` is embedded down to its primitives: `String.split('.')`,
  `atob` (forgiving base64), the percent-escape/`decodeURIComponent` dance
  (which amounts to strict UTF-8 decoding of the decoded bytes), and
  `JSON.parse`.  Any step that throws in JS yields `none`.
-/

/-! ## JavaScript character classes -/

/-- Line terminators, which `.` in a JavaScript regex (without the `s` flag)
does not match. -/
def jsLineTerminator (c : Char) : Bool :=
  c = '\n' || c = '\r' || c = ' ' || c = ' '

/-- Whitespace class matched by `\s` in a JavaScript regex and trimmed by
`Number()` / `String.prototype.trim` (the common members; rare Unicode
space separators are omitted, no embedded claim exercises them). -/
def jsWhitespace (c : Char) : Bool :=
  c = ' ' || c = '\t' || c = '\n' || c = '\r' || c = '\x0b' || c = '\x0c' ||
  c = ' ' || c = ' ' || c = ' ' || c = ' ' ||
  c = ' ' || c = ' ' || c = ' ' || c = ' ' ||
  c = ' ' || c = ' ' || c = ' ' || c = ' ' ||
  c = ' ' || c = ' ' || c = ' ' || c = ' ' ||
  c = ' ' || c = '　' || c = '﻿'

/-- ASCII whitespace stripped by the forgiving-base64 decode behind `atob`. -/
def asciiWhitespace (c : Char) : Bool :=
  c = '\t' || c = '\n' || c = '\x0c' || c = '\r' || c = ' '

def isDigitChar (c : Char) : Bool := '0' ≤ c && c ≤ '9'

def isLowerAlpha (c : Char) : Bool := 'a' ≤ c && c ≤ 'z'

def isUpperAlpha (c : Char) : Bool := 'A' ≤ c && c ≤ 'Z'

/-! ## Numeric coercion of strings (`Number(s)` semantics) -/

def digitsToNat (ds : List Char) : ℕ :=
  ds.foldl (fun a c => 10 * a + (c.toNat - 48)) 0

def takeDigits (cs : List Char) : List Char × List Char :=
  (cs.takeWhile isDigitChar, cs.dropWhile isDigitChar)

def hexDigitVal (c : Char) : Option ℕ :=
  if '0' ≤ c && c ≤ '9' then some (c.toNat - 48)
  else if 'a' ≤ c && c ≤ 'f' then some (c.toNat - 87)
  else if 'A' ≤ c && c ≤ 'F' then some (c.toNat - 55)
  else none

/-- Radix-`r` integer literal body: nonempty, fully consumed, digits valid. -/
def radixNat (r : ℕ) (digitVal : Char → Option ℕ) (cs : List Char) : Option ℚ :=
  match cs.mapM digitVal with
  | some vs => if vs.isEmpty then none else some ((vs.foldl (fun a v => r * a + v) 0 : ℕ) : ℚ)
  | none => none

/-- Unsigned JS `StrDecimalLiteral` (after the optional sign): digits with
optional fraction and exponent, or fraction alone.  `Infinity` is not
representable in `ℚ` and is approximated as `none`. -/
def jsDecimalLiteral (cs : List Char) : Option ℚ :=
  let (ip, cs1) := takeDigits cs
  let fracPart : List Char × List Char :=
    match cs1 with
    | '.' :: r => takeDigits r
    | _ => ([], cs1)
  let fs := fracPart.1
  let cs2 := fracPart.2
  if ip.isEmpty && fs.isEmpty then none
  else
    let base : ℚ := (digitsToNat ip : ℚ) + (digitsToNat fs : ℚ) / ((10 : ℚ) ^ fs.length)
    match cs2 with
    | [] => some base
    | e :: r =>
      if e = 'e' || e = 'E' then
        let signExp : Bool × List Char :=
          match r with
          | '-' :: r2 => (true, r2)
          | '+' :: r2 => (false, r2)
          | _ => (false, r)
        let (es, r3) := takeDigits signExp.2
        if es.isEmpty || ¬ r3.isEmpty then none
        else if signExp.1 then some (base / (10 : ℚ) ^ digitsToNat es)
        else some (base * (10 : ℚ) ^ digitsToNat es)
      else none

/-- `Number(s)` for a string, as used by JS `>` when one operand is a string:
trim JS whitespace; empty ⇒ 0; hex/binary/octal literals (no sign); signed
decimal literal; anything else is NaN, modeled as `none` (a NaN comparison is
false).  `Infinity` is likewise approximated as `none`. -/
def jsStringToNumber (s : String) : Option ℚ :=
  let cs := ((s.toList.dropWhile jsWhitespace).reverse.dropWhile jsWhitespace).reverse
  match cs with
  | [] => some 0
  | '0' :: x :: r =>
    if x = 'x' || x = 'X' then radixNat 16 hexDigitVal r
    else if x = 'b' || x = 'B' then
      radixNat 2 (fun c => if c = '0' then some 0 else if c = '1' then some 1 else none) r
    else if x = 'o' || x = 'O' then
      radixNat 8 (fun c => if '0' ≤ c && c ≤ '7' then some (c.toNat - 48) else none) r
    else jsDecimalLiteral cs
  | '-' :: r => (jsDecimalLiteral r).map Neg.neg
  | '+' :: r => jsDecimalLiteral r
  | _ => jsDecimalLiteral cs

/-- `String.prototype.split` with a single-character separator, structurally
recursive so that proofs can evaluate it definitionally.  Like JS `split`,
the empty string yields one empty part and adjacent separators yield empty
parts. -/
def splitOnChar (sep : Char) : List Char → List (List Char)
  | [] => [[]]
  | c :: rest =>
    let r := splitOnChar sep rest
    if c = sep then [] :: r
    else (c :: r.headD []) :: r.tail

/-- Decimal digits of a natural number (what string concatenation with a
`Date.now()` value produces in JS); fuel keeps the recursion structural. -/
def natToDigits : ℕ → ℕ → List Char
  | 0, _ => []
  | fuel + 1, n =>
    if n < 10 then [Char.ofNat (48 + n)]
    else natToDigits fuel (n / 10) ++ [Char.ofNat (48 + n % 10)]

/-- `String(n)` for the naturals JS number-to-string concatenation uses. -/
def jsNatToString (n : ℕ) : String := String.mk (natToDigits (n + 1) n)

/-! ## JSON values and `JSON.parse` -/

inductive JsonValue where
  | null : JsonValue
  | bool : Bool → JsonValue
  | num : ℚ → JsonValue
  | str : String → JsonValue
  | arr : List JsonValue → JsonValue
  | obj : List (String × JsonValue) → JsonValue
  deriving Repr

def skipJsonWs (cs : List Char) : List Char :=
  cs.dropWhile (fun c => c = ' ' || c = '\t' || c = '\n' || c = '\r')

/-- JSON number grammar: optional minus, `0` or nonzero-led digits, optional
fraction, optional exponent. -/
def parseJsonNumber (cs : List Char) : Option (ℚ × List Char) :=
  let signed : Bool × List Char :=
    match cs with
    | '-' :: r => (true, r)
    | _ => (false, cs)
  let (ds, cs1) := takeDigits signed.2
  if ds.isEmpty then none
  else if ds.length > 1 && ds.head? = some '0' then none
  else
    let fracState : Option (List Char × List Char) :=
      match cs1 with
      | '.' :: r =>
        let (fs, r2) := takeDigits r
        if fs.isEmpty then none else some (fs, r2)
      | _ => some ([], cs1)
    match fracState with
    | none => none
    | some (fs, cs2) =>
      let mag : ℚ := (digitsToNat ds : ℚ) + (digitsToNat fs : ℚ) / ((10 : ℚ) ^ fs.length)
      let base : ℚ := if signed.1 then -mag else mag
      match cs2 with
      | e :: r =>
        if e = 'e' || e = 'E' then
          let signExp : Bool × List Char :=
            match r with
            | '-' :: r2 => (true, r2)
            | '+' :: r2 => (false, r2)
            | _ => (false, r)
          let (es, r3) := takeDigits signExp.2
          if es.isEmpty then none
          else if signExp.1 then some (base / (10 : ℚ) ^ digitsToNat es, r3)
          else some (base * (10 : ℚ) ^ digitsToNat es, r3)
        else some (base, cs2)
      | [] => some (base, cs2)

def hex4 (a b c d : Char) : Option ℕ := do
  let va ← hexDigitVal a
  let vb ← hexDigitVal b
  let vc ← hexDigitVal c
  let vd ← hexDigitVal d
  pure (((va * 16 + vb) * 16 + vc) * 16 + vd)

/-- Body of a JSON string after the opening quote; returns the decoded
characters and the remainder after the closing quote. -/
def parseJsonStringBody : List Char → Option (List Char × List Char)
  | [] => none
  | '"' :: rest => some ([], rest)
  | '\\' :: '"' :: r => (parseJsonStringBody r).map (fun p => ('"' :: p.1, p.2))
  | '\\' :: '\\' :: r => (parseJsonStringBody r).map (fun p => ('\\' :: p.1, p.2))
  | '\\' :: '/' :: r => (parseJsonStringBody r).map (fun p => ('/' :: p.1, p.2))
  | '\\' :: 'b' :: r => (parseJsonStringBody r).map (fun p => ('\x08' :: p.1, p.2))
  | '\\' :: 'f' :: r => (parseJsonStringBody r).map (fun p => ('\x0c' :: p.1, p.2))
  | '\\' :: 'n' :: r => (parseJsonStringBody r).map (fun p => ('\n' :: p.1, p.2))
  | '\\' :: 'r' :: r => (parseJsonStringBody r).map (fun p => ('\r' :: p.1, p.2))
  | '\\' :: 't' :: r => (parseJsonStringBody r).map (fun p => ('\t' :: p.1, p.2))
  | '\\' :: 'u' :: a :: b :: c :: d :: r =>
    match hex4 a b c d with
    | some n => (parseJsonStringBody r).map (fun p => (Char.ofNat n :: p.1, p.2))
    | none => none
  | '\\' :: _ => none
  | c :: rest =>
    if c.toNat < 32 then none
    else (parseJsonStringBody rest).map (fun p => (c :: p.1, p.2))

def jsonLBrace : Char := Char.ofNat 123

def jsonRBrace : Char := Char.ofNat 125

mutual

def parseJsonValue : ℕ → List Char → Option (JsonValue × List Char)
  | 0, _ => none
  | fuel + 1, cs =>
    match skipJsonWs cs with
    | 'n' :: 'u' :: 'l' :: 'l' :: r => some (.null, r)
    | 't' :: 'r' :: 'u' :: 'e' :: r => some (.bool true, r)
    | 'f' :: 'a' :: 'l' :: 's' :: 'e' :: r => some (.bool false, r)
    | '"' :: r => (parseJsonStringBody r).map (fun p => (.str (String.mk p.1), p.2))
    | '[' :: r =>
      match skipJsonWs r with
      | ']' :: r2 => some (.arr [], r2)
      | r2 => (parseJsonArrayItems fuel r2).map (fun p => (.arr p.1, p.2))
    | c :: r =>
      if c = jsonLBrace then
        match skipJsonWs r with
        | c2 :: r2 =>
          if c2 = jsonRBrace then some (.obj [], r2)
          else (parseJsonObjectItems fuel (c2 :: r2)).map (fun p => (.obj p.1, p.2))
        | [] => none
      else (parseJsonNumber (c :: r)).map (fun p => (.num p.1, p.2))
    | [] => none

def parseJsonArrayItems : ℕ → List Char → Option (List JsonValue × List Char)
  | 0, _ => none
  | fuel + 1, cs =>
    match parseJsonValue fuel cs with
    | none => none
    | some (v, cs1) =>
      match skipJsonWs cs1 with
      | ',' :: r => (parseJsonArrayItems fuel r).map (fun p => (v :: p.1, p.2))
      | ']' :: r => some ([v], r)
      | _ => none

def parseJsonObjectItems : ℕ → List Char → Option (List (String × JsonValue) × List Char)
  | 0, _ => none
  | fuel + 1, cs =>
    match skipJsonWs cs with
    | '"' :: r =>
      match parseJsonStringBody r with
      | none => none
      | some (ks, cs1) =>
        match skipJsonWs cs1 with
        | ':' :: r2 =>
          match parseJsonValue fuel r2 with
          | none => none
          | some (v, cs2) =>
            match skipJsonWs cs2 with
            | ',' :: r3 =>
              (parseJsonObjectItems fuel r3).map
                (fun p => ((String.mk ks, v) :: p.1, p.2))
            | c :: r3 =>
              if c = jsonRBrace then some ([(String.mk ks, v)], r3) else none
            | [] => none
        | _ => none
    | _ => none

end

/-- `JSON.parse`: a single value with only whitespace around it. -/
def jsonParse (s : String) : Option JsonValue :=
  let cs := s.toList
  match parseJsonValue (cs.length + 1) cs with
  | some (v, rest) => if (skipJsonWs rest).isEmpty then some v else none
  | none => none

/-- Property access `v[k]` on a parsed JSON value.  For a non-object this is
`none`, standing both for `undefined` (number/string/boolean/array receivers)
and for the `TypeError` thrown by a `null` receiver — in `isAuthenticated`
either one makes the check false.  JS keeps the last of duplicate keys. -/
def jsonGetField (v : JsonValue) (k : String) : Option JsonValue :=
  match v with
  | .obj fields => ((fields.filter (fun p => p.1 = k)).getLast?).map (fun p => p.2)
  | _ => none

/-! ## `atob` (forgiving base64) and UTF-8 decoding -/

def b64CharVal (c : Char) : Option ℕ :=
  if 'A' ≤ c && c ≤ 'Z' then some (c.toNat - 65)
  else if 'a' ≤ c && c ≤ 'z' then some (c.toNat - 71)
  else if '0' ≤ c && c ≤ '9' then some (c.toNat + 4)
  else if c = '+' then some 62
  else if c = '/' then some 63
  else none

def b64StripPad (cs : List Char) : List Char :=
  let cs1 := if cs.getLast? = some '=' then cs.dropLast else cs
  if cs1.getLast? = some '=' then cs1.dropLast else cs1

/-- Reassemble 6-bit groups into bytes; a trailing group of one unit is
invalid (guarded earlier by the length-mod-4 check). -/
def b64Groups : List ℕ → Option (List ℕ)
  | [] => some []
  | [_] => none
  | [a, b] => some [a * 4 + b / 16]
  | [a, b, c] => some [a * 4 + b / 16, b % 16 * 16 + c / 4]
  | a :: b :: c :: d :: rest =>
    (b64Groups rest).map
      (fun t => (a * 4 + b / 16) :: (b % 16 * 16 + c / 4) :: (c % 4 * 64 + d) :: t)

/-- `atob`: strip ASCII whitespace, strip up to two `=` of padding when the
length is a multiple of four, reject a leftover length of one mod four or any
character outside the alphabet, then decode to bytes. -/
def atob (s : String) : Option (List ℕ) :=
  let cs0 := s.toList.filter (fun c => ¬ asciiWhitespace c)
  let cs := if cs0.length % 4 = 0 then b64StripPad cs0 else cs0
  if cs.length % 4 = 1 then none
  else
    match cs.mapM b64CharVal with
    | some vals => b64Groups vals
    | none => none

/-- Strict UTF-8 decoding of a byte list (the net effect of the
percent-escaping of `atob`'s output followed by `decodeURIComponent`, which
throws `URIError` on malformed sequences). -/
def utf8Decode : List ℕ → Option (List Char)
  | [] => some []
  | b :: rest =>
    if b ≤ 127 then (utf8Decode rest).map (fun t => Char.ofNat b :: t)
    else if 194 ≤ b && b ≤ 223 then
      match rest with
      | b2 :: rest2 =>
        if 128 ≤ b2 && b2 ≤ 191 then
          (utf8Decode rest2).map (fun t => Char.ofNat ((b - 192) * 64 + (b2 - 128)) :: t)
        else none
      | [] => none
    else if 224 ≤ b && b ≤ 239 then
      match rest with
      | b2 :: b3 :: rest3 =>
        let lo2 := if b = 224 then 160 else 128
        let hi2 := if b = 237 then 159 else 191
        if lo2 ≤ b2 && b2 ≤ hi2 && 128 ≤ b3 && b3 ≤ 191 then
          (utf8Decode rest3).map
            (fun t => Char.ofNat ((b - 224) * 4096 + (b2 - 128) * 64 + (b3 - 128)) :: t)
        else none
      | _ => none
    else if 240 ≤ b && b ≤ 244 then
      match rest with
      | b2 :: b3 :: b4 :: rest4 =>
        let lo2 := if b = 240 then 144 else 128
        let hi2 := if b = 244 then 143 else 191
        if lo2 ≤ b2 && b2 ≤ hi2 && 128 ≤ b3 && b3 ≤ 191 && 128 ≤ b4 && b4 ≤ 191 then
          (utf8Decode rest4).map
            (fun t =>
              Char.ofNat ((b - 240) * 262144 + (b2 - 128) * 4096 + (b3 - 128) * 64 + (b4 - 128)) :: t)
        else none
      | _ => none
    else none

/-! ## `parseJwt` and the decoded expiry -/

/-- `AuthService.parseJwt`: take segment 1 of `token.split('.')` (a missing
segment throws in JS, here `none`), translate the URL-safe alphabet, `atob`,
UTF-8-decode the bytes, `JSON.parse`. -/
def parseJwt (token : String) : Option JsonValue := do
  let seg ← (splitOnChar '.' token.toList).get? 1
  let b64 := seg.map (fun c => if c = '-' then '+' else if c = '_' then '/' else c)
  let bytes ← atob (String.mk b64)
  let chars ← utf8Decode bytes
  jsonParse (String.mk chars)

/-- Numeric coercion applied by `payload.exp > currentTime`: numbers compare
directly, strings via `Number()`, booleans and `null` via 1/0/0.  A missing
field (`undefined`) is NaN and compares false, modeled as `none`.  Arrays and
objects coerce through `ToPrimitive`, which for the values a JWT payload can
realistically hold is NaN; they are modeled as `none`. -/
def jsToNumber : JsonValue → Option ℚ
  | .num q => some q
  | .str s => jsStringToNumber s
  | .bool true => some 1
  | .bool false => some 0
  | .null => some 0
  | .arr _ => none
  | .obj _ => none

/-- The decoded expiry claim of a stored token: the `exp` field of the
decoded payload, as the number JS would compare it as. -/
def decodedExpiry (token : String) : Option ℚ := do
  let payload ← parseJwt token
  let expVal ← jsonGetField payload "exp"
  jsToNumber expVal

/-! ## Data model -/

/-- One account's record, as the gateway returns it and storage caches it. -/
structure UserRecord where
  id : String := ""
  email : String := ""
  firstName : String := ""
  lastName : String := ""
  phone : String := ""
  dateOfBirth : String := ""
  gender : String := ""
  avatar : String := ""
  verified : Bool := false
  createdAt : String := ""
  deriving Repr, DecidableEq

/-- One delivery address, as cached in `localStorage` under `user_addresses`. -/
structure AddressRecord where
  id : String := ""
  fullName : String := ""
  addressLine1 : String := ""
  addressLine2 : String := ""
  city : String := ""
  state : String := ""
  zipCode : String := ""
  country : String := ""
  phone : String := ""
  addressType : String := "home"
  isDefault : Bool := false
  deriving Repr, DecidableEq

/-- The browser storage the services read and write.  `authToken`,
`refreshToken`, `userData` and `userAddresses` live in `localStorage`
(keys `auth_token`, `refresh_token`, `user_data`, `user_addresses`);
`pendingRegistration` lives in `sessionStorage` (key `pending_registration`,
holding the email and the server-issued userId).  JSON round-trips through
storage are elided: the typed values are held directly. -/
structure Storage where
  authToken : Option String := none
  refreshToken : Option String := none
  userData : Option UserRecord := none
  userAddresses : Option (List AddressRecord) := none
  pendingRegistration : Option (String × String) := none
  deriving Repr, DecidableEq

/-- Observable side effects of one service call: whether the backend gateway
was reached, which window events were dispatched (in order), and any forced
navigation (`window.location.href` assignment). -/
structure Trace where
  gatewayCalled : Bool := false
  events : List String := []
  redirectedTo : Option String := none
  deriving Repr, DecidableEq

/-- Outcome of the awaited gateway call: the promise resolved with a response
object, or it rejected (network failure), which throws at the `await`. -/
inductive GatewayOutcome (α : Type) where
  | resolved : α → GatewayOutcome α
  | thrown : String → GatewayOutcome α
  deriving Repr, DecidableEq

/-- JS truthiness of a string-or-null storage read: `null` and the empty
string are falsy. -/
def truthy : Option String → Bool
  | none => false
  | some s => s ≠ ""

/-- `response.message || fallback`. -/
def messageOr (m fallback : String) : String := if m ≠ "" then m else fallback

/-! ## AuthService (session manager and token store) -/

namespace AuthService

/-- The regex `^[^\s@]+@[^\s@]+\.[^\s@]+$`: one `@` splitting the string into
a nonempty whitespace-free local part and a domain that itself splits at some
`.` into two nonempty whitespace-free parts (so the domain has an interior
dot). -/
def validateEmail (email : String) : Bool :=
  match splitOnChar '@' email.toList with
  | [lhs, dom] =>
    ¬ lhs.isEmpty && lhs.all (fun c => ¬ jsWhitespace c) &&
    dom.all (fun c => ¬ jsWhitespace c) &&
    ((dom.drop 1).dropLast.contains '.')
  | _ => false

/-- The regex `^(?=.*[a-z])(?=.*[A-Z])(?=.*\d).{8,}$`: every character is a
non-line-terminator, at least eight of them, and a lower-case letter, an
upper-case letter and a digit occur. -/
def validatePassword (password : String) : Bool :=
  let cs := password.toList
  decide (cs.length ≥ 8) && cs.all (fun c => ¬ jsLineTerminator c) &&
  cs.any isLowerAlpha && cs.any isUpperAlpha && cs.any isDigitChar

def getToken (s : Storage) : Option String := s.authToken

def getRefreshToken (s : Storage) : Option String := s.refreshToken

def getCurrentUser (s : Storage) : Option UserRecord := s.userData

/-- `setTokens`: the access token is overwritten unconditionally; the refresh
token only when the argument is truthy. -/
def setTokens (s : Storage) (token refreshTok : String) : Storage :=
  { s with authToken := some token,
           refreshToken := if refreshTok ≠ "" then some refreshTok else s.refreshToken }

def setUserData (s : Storage) (user : UserRecord) : Storage :=
  { s with userData := some user }

/-- `clearAuthData`: removes both tokens, the cached user, and the
pending-registration marker. -/
def clearAuthData (s : Storage) : Storage :=
  { s with authToken := none, refreshToken := none, userData := none,
           pendingRegistration := none }

/-- `isAuthenticated`, recomputed from storage and the clock on every call:
a truthy token must decode (`parseJwt`) to a payload whose `exp` claim
compares strictly greater than `Date.now() / 1000`; any decode failure is
caught and yields `false`. -/
def isAuthenticated (s : Storage) (nowMs : ℚ) : Bool :=
  match s.authToken with
  | none => false
  | some token =>
    if token = "" then false
    else
      match decodedExpiry token with
      | some e => decide (e > nowMs / 1000)
      | none => false

/-- Gateway response shape for `login` and `verifyOtp`. -/
structure SessionResponse where
  success : Bool
  token : String := ""
  refreshTok : String := ""
  user : UserRecord := {}
  message : String := ""
  deriving Repr, DecidableEq

/-- Gateway response shape for `register`. -/
structure RegisterResponse where
  success : Bool
  userId : String := ""
  message : String := ""
  deriving Repr, DecidableEq

/-- Gateway response shape for endpoints whose body is otherwise ignored. -/
structure BasicResponse where
  success : Bool
  message : String := ""
  deriving Repr, DecidableEq

/-- Gateway response shape for `refreshToken`. -/
structure RefreshResponse where
  success : Bool
  token : String := ""
  refreshTok : String := ""
  deriving Repr, DecidableEq

/-- Input to `registerUser`; absent form fields are the empty string, which
is falsy like `undefined`. -/
structure RegisterInput where
  email : String := ""
  password : String := ""
  firstName : String := ""
  lastName : String := ""
  phone : String := ""
  deriving Repr, DecidableEq

structure RegisterOk where
  userId : String := ""
  requiresOtp : Bool := true
  deriving Repr, DecidableEq

/-- `AuthService.registerUser`: validate required fields, email format and
password strength before the gateway call; on success persist the
pending-registration marker. -/
def registerUser (s : Storage) (d : RegisterInput)
    (gw : GatewayOutcome RegisterResponse) : Except String RegisterOk × Storage × Trace :=
  if d.email = "" || d.password = "" || d.firstName = "" || d.lastName = "" then
    (.error "All required fields must be filled", s, {})
  else if ¬ validateEmail d.email then
    (.error "Invalid email format", s, {})
  else if ¬ validatePassword d.password then
    (.error "Password must be at least 8 characters with uppercase, lowercase, and number", s, {})
  else
    match gw with
    | .thrown msg => (.error msg, s, { gatewayCalled := true })
    | .resolved resp =>
      if resp.success then
        (.ok { userId := resp.userId, requiresOtp := true },
         { s with pendingRegistration := some (d.email, resp.userId) },
         { gatewayCalled := true })
      else
        (.error (messageOr resp.message "Registration failed"), s, { gatewayCalled := true })

/-- `AuthService.verifyOtp`: requires truthy userId and otp and an otp of
length exactly six; on success clears the pending-registration marker, then
stores the tokens and the user record.  No window event is dispatched. -/
def verifyOtp (s : Storage) (userId otp : String)
    (gw : GatewayOutcome SessionResponse) : Except String UserRecord × Storage × Trace :=
  if userId = "" || otp = "" then
    (.error "User ID and OTP are required", s, {})
  else if otp.length ≠ 6 then
    (.error "OTP must be 6 digits", s, {})
  else
    match gw with
    | .thrown msg => (.error msg, s, { gatewayCalled := true })
    | .resolved resp =>
      if resp.success then
        (.ok resp.user,
         setUserData (setTokens { s with pendingRegistration := none } resp.token resp.refreshTok)
           resp.user,
         { gatewayCalled := true })
      else
        (.error (messageOr resp.message "OTP verification failed"), s, { gatewayCalled := true })

/-- `AuthService.loginUser`: requires both fields and a well-formed email
(shape only); on success stores tokens and user data and dispatches
`userLoggedIn`. -/
def loginUser (s : Storage) (email password : String)
    (gw : GatewayOutcome SessionResponse) : Except String UserRecord × Storage × Trace :=
  if email = "" || password = "" then
    (.error "Email and password are required", s, {})
  else if ¬ validateEmail email then
    (.error "Invalid email format", s, {})
  else
    match gw with
    | .thrown msg => (.error msg, s, { gatewayCalled := true })
    | .resolved resp =>
      if resp.success then
        (.ok resp.user,
         setUserData (setTokens s resp.token resp.refreshTok) resp.user,
         { gatewayCalled := true, events := ["userLoggedIn"] })
      else
        (.error (messageOr resp.message "Login failed"), s, { gatewayCalled := true })

/-- `AuthService.logoutUser`: notifies the gateway only when a token is
stored (its response is ignored), then clears all auth data and dispatches
`userLoggedOut`.  If the notification throws, the catch still clears all
auth data and rethrows without dispatching the event. -/
def logoutUser (s : Storage) (gw : GatewayOutcome BasicResponse) :
    Except String Unit × Storage × Trace :=
  if truthy (getToken s) then
    match gw with
    | .resolved _ =>
      (.ok (), clearAuthData s, { gatewayCalled := true, events := ["userLoggedOut"] })
    | .thrown msg =>
      (.error msg, clearAuthData s, { gatewayCalled := true })
  else
    (.ok (), clearAuthData s, { events := ["userLoggedOut"] })

/-- `AuthService.refreshToken`: with no refresh token stored, the thrown
`No refresh token available` is caught by the function's own catch, which
clears all auth data and forces navigation to `/login.html`; the same
teardown runs when the gateway rejects or throws.  On success the new token
pair is stored. -/
def refreshToken (s : Storage) (gw : GatewayOutcome RefreshResponse) :
    Except String String × Storage × Trace :=
  if ¬ truthy (getRefreshToken s) then
    (.error "No refresh token available", clearAuthData s,
     { redirectedTo := some "/login.html" })
  else
    match gw with
    | .thrown msg =>
      (.error msg, clearAuthData s,
       { gatewayCalled := true, redirectedTo := some "/login.html" })
    | .resolved resp =>
      if resp.success then
        (.ok resp.token, setTokens s resp.token resp.refreshTok, { gatewayCalled := true })
      else
        (.error "Token refresh failed", clearAuthData s,
         { gatewayCalled := true, redirectedTo := some "/login.html" })

/-! ### The hard-coded mock gateway responses (`mockApiCall`) -/

/-- The user object in the mock `/auth/login` response. -/
def mockLoginUser : UserRecord :=
  { id := "user_123", email := "user@example.com", firstName := "John",
    lastName := "Doe", phone := "+1234567890", verified := true }

/-- The mock `/auth/login` response: success, with tokens derived from
`Date.now()` at the time of the call. -/
def mockLoginResponse (nowMs : ℕ) : SessionResponse :=
  { success := true,
    token := "mock_jwt_token_" ++ jsNatToString nowMs,
    refreshTok := "mock_refresh_token_" ++ jsNatToString nowMs,
    user := mockLoginUser }

end AuthService

/-- Sequencing of observable effects across nested service calls
(`deleteAccount` awaiting `logoutUser`). -/
def Trace.merge (a b : Trace) : Trace :=
  { gatewayCalled := a.gatewayCalled || b.gatewayCalled,
    events := a.events ++ b.events,
    redirectedTo := match b.redirectedTo with | some r => some r | none => a.redirectedTo }

/-! ## UserService (profile and address cache manager) -/

namespace UserService

/-- Same email regex as `AuthService.validateEmail` (the source duplicates
the definition verbatim). -/
def validateEmail (email : String) : Bool := AuthService.validateEmail email

/-- Separator class `[-\s\.]` of the phone regex. -/
def phoneSep (c : Char) : Bool := c = '-' || c = '.' || jsWhitespace c

/-- Remainders after optionally consuming one character satisfying `p`
(regex `X?`): both branches of the alternative. -/
def optTok (p : Char → Bool) (cs : List Char) : List (List Char) :=
  match cs with
  | c :: rest => if p c then [rest, cs] else [cs]
  | [] => [cs]

/-- Remainders after consuming between `lo` and `hi` digits
(regex `[0-9]{lo,hi}`). -/
def digitRuns (lo hi : ℕ) (cs : List Char) : List (List Char) :=
  (List.range (hi + 1)).filterMap (fun n =>
    if lo ≤ n ∧ n ≤ hi ∧ n ≤ cs.length ∧ (cs.take n).all isDigitChar then
      some (cs.drop n)
    else none)

/-- The regex `^[\+]?[(]?[0-9]{1,4}[)]?[-\s\.]?[(]?[0-9]{1,4}[)]?[-\s\.]?[0-9]{1,9}$`,
as an existential matcher: some choice of the optional pieces and digit-run
lengths consumes the whole string. -/
def validatePhone (phone : String) : Bool :=
  let r0 := [phone.toList]
  let r1 := r0.flatMap (optTok (fun c => c = '+'))
  let r2 := r1.flatMap (optTok (fun c => c = '('))
  let r3 := r2.flatMap (digitRuns 1 4)
  let r4 := r3.flatMap (optTok (fun c => c = ')'))
  let r5 := r4.flatMap (optTok phoneSep)
  let r6 := r5.flatMap (optTok (fun c => c = '('))
  let r7 := r6.flatMap (digitRuns 1 4)
  let r8 := r7.flatMap (optTok (fun c => c = ')'))
  let r9 := r8.flatMap (optTok phoneSep)
  let r10 := r9.flatMap (digitRuns 1 9)
  r10.any List.isEmpty

/-- The regex `^\d{5,6}(-\d{4})?$`: five or six digits, optionally followed
by a dash and four digits. -/
def validateZip (zip : String) : Bool :=
  let cs := zip.toList
  let tail4 (rest : List Char) : Bool :=
    rest.isEmpty ||
      (rest.head? = some '-' && (rest.drop 1).length = 4 && (rest.drop 1).all isDigitChar)
  (5 ≤ cs.length && (cs.take 5).all isDigitChar && tail4 (cs.drop 5)) ||
  (6 ≤ cs.length && (cs.take 6).all isDigitChar && tail4 (cs.drop 6))

/-- `String.prototype.trim`. -/
def jsTrim (s : String) : String :=
  String.mk (((s.toList.dropWhile jsWhitespace).reverse.dropWhile jsWhitespace).reverse)

/-- Partial profile update payload; absent form fields are the empty string,
which is falsy like `undefined`. -/
structure ProfileInput where
  firstName : String := ""
  lastName : String := ""
  email : String := ""
  phone : String := ""
  dateOfBirth : String := ""
  gender : String := ""
  deriving Repr, DecidableEq

/-- The object `validateProfileData` builds: only supplied fields are kept
(empty string standing for an omitted key). -/
structure ValidatedProfile where
  firstName : String := ""
  lastName : String := ""
  email : String := ""
  phone : String := ""
  dateOfBirth : String := ""
  gender : String := ""
  deriving Repr, DecidableEq

/-- `UserService.validateProfileData`: each supplied field is validated
independently (names at least two characters, email and phone by regex) and
unsupplied fields are omitted from the result. -/
def validateProfileData (d : ProfileInput) : Except String ValidatedProfile :=
  if d.firstName ≠ "" ∧ d.firstName.length < 2 then
    .error "First name must be at least 2 characters"
  else if d.lastName ≠ "" ∧ d.lastName.length < 2 then
    .error "Last name must be at least 2 characters"
  else if d.email ≠ "" ∧ ¬ validateEmail d.email then
    .error "Invalid email format"
  else if d.phone ≠ "" ∧ ¬ validatePhone d.phone then
    .error "Invalid phone number format"
  else
    .ok { firstName := if d.firstName ≠ "" then jsTrim d.firstName else "",
          lastName := if d.lastName ≠ "" then jsTrim d.lastName else "",
          email := if d.email ≠ "" then String.mk ((jsTrim d.email).toList.map Char.toLower) else "",
          phone := if d.phone ≠ "" then jsTrim d.phone else "",
          dateOfBirth := d.dateOfBirth,
          gender := d.gender }

/-- New-address payload. -/
structure AddressInput where
  fullName : String := ""
  addressLine1 : String := ""
  addressLine2 : String := ""
  city : String := ""
  state : String := ""
  zipCode : String := ""
  country : String := ""
  phone : String := ""
  addressType : String := ""
  isDefault : Bool := false
  deriving Repr, DecidableEq

/-- `UserService.validateAddressData`: required fields checked in source
order, then the zip and phone regexes; the validated object (no id yet — the
server assigns one) carries trimmed fields and the defaults
`addressType = "home"`, `isDefault = false`. -/
def validateAddressData (d : AddressInput) : Except String AddressRecord :=
  if d.fullName = "" || jsTrim d.fullName = "" then .error "fullName is required"
  else if d.addressLine1 = "" || jsTrim d.addressLine1 = "" then .error "addressLine1 is required"
  else if d.city = "" || jsTrim d.city = "" then .error "city is required"
  else if d.state = "" || jsTrim d.state = "" then .error "state is required"
  else if d.zipCode = "" || jsTrim d.zipCode = "" then .error "zipCode is required"
  else if d.country = "" || jsTrim d.country = "" then .error "country is required"
  else if d.phone = "" || jsTrim d.phone = "" then .error "phone is required"
  else if ¬ validateZip d.zipCode then .error "Invalid zip code format"
  else if ¬ validatePhone d.phone then .error "Invalid phone number format"
  else
    .ok { id := "",
          fullName := jsTrim d.fullName,
          addressLine1 := jsTrim d.addressLine1,
          addressLine2 := if d.addressLine2 ≠ "" then jsTrim d.addressLine2 else "",
          city := jsTrim d.city,
          state := jsTrim d.state,
          zipCode := jsTrim d.zipCode,
          country := jsTrim d.country,
          phone := jsTrim d.phone,
          addressType := if d.addressType ≠ "" then d.addressType else "home",
          isDefault := d.isDefault }

/-- Gateway response shape for profile fetch/update. -/
structure ProfileResponse where
  success : Bool
  user : UserRecord := {}
  message : String := ""
  deriving Repr, DecidableEq

/-- Gateway response shape for the avatar upload. -/
structure AvatarResponse where
  success : Bool
  avatarUrl : String := ""
  message : String := ""
  deriving Repr, DecidableEq

/-- Gateway response shape for the address-collection fetch. -/
structure AddressListResponse where
  success : Bool
  addresses : List AddressRecord := []
  message : String := ""
  deriving Repr, DecidableEq

/-- Gateway response shape for single-address operations. -/
structure AddressResponse where
  success : Bool
  address : AddressRecord := {}
  message : String := ""
  deriving Repr, DecidableEq

/-- A profile read result; `cached = true` is the staleness marker the
source attaches when serving the local copy. -/
structure ProfileResult where
  user : UserRecord
  cached : Bool := false
  deriving Repr, DecidableEq

/-- An address-list read result with the same staleness marker. -/
structure AddressesResult where
  addresses : List AddressRecord
  cached : Bool := false
  deriving Repr, DecidableEq

/-- `UserService.getUserProfile`: requires a token; reads the cached user,
then fetches.  On a successful response the cache is overwritten and the
fresh record returned; on an unsuccessful response the cached record is
served with the staleness marker, or the failure message is thrown when no
cache exists.  A gateway exception propagates out of the catch unchanged —
there is no cache fallback on that path. -/
def getUserProfile (s : Storage) (gw : GatewayOutcome ProfileResponse) :
    Except String ProfileResult × Storage × Trace :=
  if ¬ truthy (AuthService.getToken s) then
    (.error "User not authenticated", s, {})
  else
    let cachedUser := AuthService.getCurrentUser s
    match gw with
    | .thrown msg => (.error msg, s, { gatewayCalled := true })
    | .resolved resp =>
      if resp.success then
        (.ok { user := resp.user }, AuthService.setUserData s resp.user,
         { gatewayCalled := true })
      else
        match cachedUser with
        | some u => (.ok { user := u, cached := true }, s, { gatewayCalled := true })
        | none =>
          (.error (messageOr resp.message "Failed to fetch profile"), s,
           { gatewayCalled := true })

/-- `UserService.updateUserProfile`: token required, fields validated before
the gateway call; on success the returned full record replaces the cached
user and `profileUpdated` is dispatched; a rejected write leaves the cache
untouched. -/
def updateUserProfile (s : Storage) (d : ProfileInput)
    (gw : GatewayOutcome ProfileResponse) : Except String UserRecord × Storage × Trace :=
  if ¬ truthy (AuthService.getToken s) then
    (.error "User not authenticated", s, {})
  else
    match validateProfileData d with
    | .error e => (.error e, s, {})
    | .ok _ =>
      match gw with
      | .thrown msg => (.error msg, s, { gatewayCalled := true })
      | .resolved resp =>
        if resp.success then
          (.ok resp.user, AuthService.setUserData s resp.user,
           { gatewayCalled := true, events := ["profileUpdated"] })
        else
          (.error (messageOr resp.message "Failed to update profile"), s,
           { gatewayCalled := true })

/-- The `File` metadata `updateProfilePicture` inspects. -/
structure ImageFile where
  mimeType : String := ""
  size : ℕ := 0
  deriving Repr, DecidableEq

/-- `UserService.updateProfilePicture`: token required; the file must exist,
be an image MIME type, and not exceed 5 MiB, all before the gateway call.
On success only the avatar field of the cached user is patched (reading a
`null` cached user would throw a `TypeError`, rethrown by the catch). -/
def updateProfilePicture (s : Storage) (file : Option ImageFile)
    (gw : GatewayOutcome AvatarResponse) : Except String String × Storage × Trace :=
  if ¬ truthy (AuthService.getToken s) then
    (.error "User not authenticated", s, {})
  else
    match file with
    | none => (.error "Please select a valid image file", s, {})
    | some f =>
      if ¬ ("image/".toList.isPrefixOf f.mimeType.toList) then
        (.error "Please select a valid image file", s, {})
      else if f.size > 5 * 1024 * 1024 then
        (.error "Image size must be less than 5MB", s, {})
      else
        match gw with
        | .thrown msg => (.error msg, s, { gatewayCalled := true })
        | .resolved resp =>
          if resp.success then
            match AuthService.getCurrentUser s with
            | some u =>
              (.ok resp.avatarUrl,
               AuthService.setUserData s { u with avatar := resp.avatarUrl },
               { gatewayCalled := true })
            | none =>
              (.error "TypeError: Cannot set properties of null", s,
               { gatewayCalled := true })
          else
            (.error (messageOr resp.message "Failed to upload profile picture"), s,
             { gatewayCalled := true })

/-- `UserService.deleteAccount`: token and password required; on a successful
deletion the whole `logoutUser` flow runs (clearing the session); a failure
leaves the session untouched. -/
def deleteAccount (s : Storage) (password : String)
    (gwDelete : GatewayOutcome AuthService.BasicResponse)
    (gwLogout : GatewayOutcome AuthService.BasicResponse) :
    Except String Unit × Storage × Trace :=
  if ¬ truthy (AuthService.getToken s) then
    (.error "User not authenticated", s, {})
  else if password = "" then
    (.error "Password is required to delete account", s, {})
  else
    match gwDelete with
    | .thrown msg => (.error msg, s, { gatewayCalled := true })
    | .resolved resp =>
      if resp.success then
        match AuthService.logoutUser s gwLogout with
        | (.ok _, s1, tr) => (.ok (), s1, Trace.merge { gatewayCalled := true } tr)
        | (.error e, s1, tr) => (.error e, s1, Trace.merge { gatewayCalled := true } tr)
      else
        (.error (messageOr resp.message "Failed to delete account"), s,
         { gatewayCalled := true })

/-- `UserService.listAddresses`: token required; reads the cached
collection, then fetches.  A successful fetch replaces the cache wholesale;
an unsuccessful response serves the cached collection with the staleness
marker, or throws when no cache exists; a gateway exception propagates. -/
def listAddresses (s : Storage) (gw : GatewayOutcome AddressListResponse) :
    Except String AddressesResult × Storage × Trace :=
  if ¬ truthy (AuthService.getToken s) then
    (.error "User not authenticated", s, {})
  else
    let cached := s.userAddresses
    match gw with
    | .thrown msg => (.error msg, s, { gatewayCalled := true })
    | .resolved resp =>
      if resp.success then
        (.ok { addresses := resp.addresses },
         { s with userAddresses := some resp.addresses },
         { gatewayCalled := true })
      else
        match cached with
        | some l => (.ok { addresses := l, cached := true }, s, { gatewayCalled := true })
        | none =>
          (.error (messageOr resp.message "Failed to fetch addresses"), s,
           { gatewayCalled := true })

set_option linter.unusedVariables false in
/-- `UserService.getAddress`: token required; authoritative fetch only, no
cache involvement in either direction.  (`addressId` only builds the request
URL in the source, so the embedding does not consume it.) -/
def getAddress (s : Storage) (addressId : String)
    (gw : GatewayOutcome AddressResponse) : Except String AddressRecord × Storage × Trace :=
  if ¬ truthy (AuthService.getToken s) then
    (.error "User not authenticated", s, {})
  else
    match gw with
    | .thrown msg => (.error msg, s, { gatewayCalled := true })
    | .resolved resp =>
      if resp.success then (.ok resp.address, s, { gatewayCalled := true })
      else
        (.error (messageOr resp.message "Failed to fetch address"), s,
         { gatewayCalled := true })

/-- `UserService.addAddress`: token required, payload validated before the
gateway call; on success the server-assigned record is appended to the
cached collection and `addressAdded` is dispatched. -/
def addAddress (s : Storage) (d : AddressInput)
    (gw : GatewayOutcome AddressResponse) : Except String AddressRecord × Storage × Trace :=
  if ¬ truthy (AuthService.getToken s) then
    (.error "User not authenticated", s, {})
  else
    match validateAddressData d with
    | .error e => (.error e, s, {})
    | .ok _ =>
      match gw with
      | .thrown msg => (.error msg, s, { gatewayCalled := true })
      | .resolved resp =>
        if resp.success then
          (.ok resp.address,
           { s with userAddresses := some (s.userAddresses.getD [] ++ [resp.address]) },
           { gatewayCalled := true, events := ["addressAdded"] })
        else
          (.error (messageOr resp.message "Failed to add address"), s,
           { gatewayCalled := true })

/-- `UserService.updateAddress`: token, id and payload validation before the
gateway call; on success the first cache entry with the matching id is
replaced (the cache is rewritten only when a match exists) and
`addressUpdated` is dispatched. -/
def updateAddress (s : Storage) (addressId : String) (d : AddressInput)
    (gw : GatewayOutcome AddressResponse) : Except String AddressRecord × Storage × Trace :=
  if ¬ truthy (AuthService.getToken s) then
    (.error "User not authenticated", s, {})
  else if addressId = "" then
    (.error "Address ID is required", s, {})
  else
    match validateAddressData d with
    | .error e => (.error e, s, {})
    | .ok _ =>
      match gw with
      | .thrown msg => (.error msg, s, { gatewayCalled := true })
      | .resolved resp =>
        if resp.success then
          let addresses := s.userAddresses.getD []
          let s1 :=
            match addresses.findIdx? (fun a => a.id == addressId) with
            | some i => { s with userAddresses := some (addresses.set i resp.address) }
            | none => s
          (.ok resp.address, s1, { gatewayCalled := true, events := ["addressUpdated"] })
        else
          (.error (messageOr resp.message "Failed to update address"), s,
           { gatewayCalled := true })

/-- `UserService.deleteAddress`: token and id required; on success the entry
is removed from the cache by id and `addressDeleted` is dispatched. -/
def deleteAddress (s : Storage) (addressId : String)
    (gw : GatewayOutcome AuthService.BasicResponse) : Except String Unit × Storage × Trace :=
  if ¬ truthy (AuthService.getToken s) then
    (.error "User not authenticated", s, {})
  else if addressId = "" then
    (.error "Address ID is required", s, {})
  else
    match gw with
    | .thrown msg => (.error msg, s, { gatewayCalled := true })
    | .resolved resp =>
      if resp.success then
        let remaining := (s.userAddresses.getD []).filter (fun a => ¬ a.id == addressId)
        (.ok (), { s with userAddresses := some remaining },
         { gatewayCalled := true, events := ["addressDeleted"] })
      else
        (.error (messageOr resp.message "Failed to delete address"), s,
         { gatewayCalled := true })

/-- `UserService.setDefaultAddress`: token and id required; on a successful
confirmation every cached entry's flag is rewritten to
`isDefault = (entry.id === addressId)` and the collection is re-cached. -/
def setDefaultAddress (s : Storage) (addressId : String)
    (gw : GatewayOutcome AuthService.BasicResponse) : Except String Unit × Storage × Trace :=
  if ¬ truthy (AuthService.getToken s) then
    (.error "User not authenticated", s, {})
  else if addressId = "" then
    (.error "Address ID is required", s, {})
  else
    match gw with
    | .thrown msg => (.error msg, s, { gatewayCalled := true })
    | .resolved resp =>
      if resp.success then
        let rewritten :=
          (s.userAddresses.getD []).map (fun a => { a with isDefault := a.id == addressId })
        (.ok (), { s with userAddresses := some rewritten }, { gatewayCalled := true })
      else
        (.error (messageOr resp.message "Failed to set default address"), s,
         { gatewayCalled := true })

/-! ### The hard-coded mock addresses (`authenticatedRequest`) -/

/-- `addr_1` of the mock `/user/addresses` response. -/
def mockAddr1 : AddressRecord :=
  { id := "addr_1", fullName := "John Doe", addressLine1 := "123 Main St",
    addressLine2 := "Apt 4B", city := "New York", state := "NY",
    zipCode := "10001", country := "USA", phone := "+1234567890",
    addressType := "home", isDefault := true }

/-- `addr_2` of the mock `/user/addresses` response. -/
def mockAddr2 : AddressRecord :=
  { id := "addr_2", fullName := "John Doe", addressLine1 := "456 Office Blvd",
    addressLine2 := "Suite 200", city := "New York", state := "NY",
    zipCode := "10002", country := "USA", phone := "+1234567890",
    addressType := "work", isDefault := false }

end UserService

namespace AuthService

/-- The user object in the mock `/auth/verify-otp` response. -/
def mockVerifyOtpUser (nowMs : ℕ) : UserRecord :=
  { id := "user_" ++ jsNatToString nowMs, email := "user@example.com",
    firstName := "John", lastName := "Doe", phone := "+1234567890",
    verified := true }

/-- The mock `/auth/verify-otp` response: success, with Date.now-derived
tokens and user id. -/
def mockVerifyOtpResponse (nowMs : ℕ) : SessionResponse :=
  { success := true,
    token := "mock_jwt_token_" ++ jsNatToString nowMs,
    refreshTok := "mock_refresh_token_" ++ jsNatToString nowMs,
    user := mockVerifyOtpUser nowMs }

end AuthService

/-! ## Supporting lemmas -/

/-- In a collection whose ids are pairwise distinct, at most one entry can
carry any given id. -/
theorem countP_id_le_one (l : List AddressRecord) (x : String)
    (h : (l.map AddressRecord.id).Nodup) :
    l.countP (fun a => a.id == x) ≤ 1 := by
  induction l with
  | nil => simp
  | cons a t ih =>
    rw [List.map_cons, List.nodup_cons] at h
    rw [List.countP_cons]
    cases hx : (a.id == x) with
    | false => simpa using ih h.2
    | true =>
      have hz : t.countP (fun b => b.id == x) = 0 := by
        rw [List.countP_eq_zero]
        intro b hb hbx
        have hbid : b.id = x := by simpa using hbx
        have haid : a.id = x := by simpa using hx
        exact h.1 (List.mem_map.mpr ⟨b, hb, by rw [hbid, haid]⟩)
      simp [hz]

/-! ## The claims -/

/-- C1: after a `setDefaultAddress(id)` call resolves successfully, every
record of the cached collection has `isDefault = (record.id === id)`, so
(ids being pairwise distinct, as server-assigned ids are) at most one cached
record is marked default, and it is exactly the record with the requested
id — the siblings' flags are all cleared, not just the target's flipped. -/
theorem C1_setDefaultAddress_at_most_one_default (s : Storage) (addressId : String)
    (resp : AuthService.BasicResponse)
    (htok : truthy (AuthService.getToken s) = true)
    (hid : addressId ≠ "")
    (hok : resp.success = true)
    (hnodup : ((s.userAddresses.getD []).map AddressRecord.id).Nodup) :
    ∃ l', (UserService.setDefaultAddress s addressId (.resolved resp)).1 = .ok () ∧
      (UserService.setDefaultAddress s addressId (.resolved resp)).2.1.userAddresses = some l' ∧
      (∀ a ∈ l', a.isDefault = (a.id == addressId)) ∧
      l'.countP (fun a => a.isDefault) ≤ 1 := by
  refine ⟨(s.userAddresses.getD []).map
      (fun a => { a with isDefault := a.id == addressId }), ?_, ?_, ?_, ?_⟩
  · simp [UserService.setDefaultAddress, htok, hid, hok]
  · simp [UserService.setDefaultAddress, htok, hid, hok]
  · intro a ha
    obtain ⟨b, _, rfl⟩ := List.mem_map.mp ha
    rfl
  · rw [List.countP_map]
    have hcomp : ((fun a : AddressRecord => a.isDefault) ∘
        fun a : AddressRecord => { a with isDefault := a.id == addressId }) =
        fun b : AddressRecord => b.id == addressId := rfl
    rw [hcomp]
    exact countP_id_le_one _ _ hnodup

/-- C1 witness: Scenario D on the mock data — `addr_1` default and `addr_2`
not; `setDefaultAddress("addr_2")` leaves `addr_1` cleared and `addr_2` the
unique default. -/
theorem C1_setDefaultAddress_at_most_one_default_witness :
    truthy (AuthService.getToken
        { authToken := some "tok",
          userAddresses := some [UserService.mockAddr1, UserService.mockAddr2] }) = true ∧
    "addr_2" ≠ "" ∧
    (({ success := true } : AuthService.BasicResponse)).success = true ∧
    ((((some [UserService.mockAddr1, UserService.mockAddr2] : Option (List AddressRecord)).getD
        []).map AddressRecord.id)).Nodup ∧
    (∃ l', (UserService.setDefaultAddress
        { authToken := some "tok",
          userAddresses := some [UserService.mockAddr1, UserService.mockAddr2] }
        "addr_2" (.resolved { success := true })).1 = .ok () ∧
      (UserService.setDefaultAddress
        { authToken := some "tok",
          userAddresses := some [UserService.mockAddr1, UserService.mockAddr2] }
        "addr_2" (.resolved { success := true })).2.1.userAddresses = some l' ∧
      (∀ a ∈ l', a.isDefault = (a.id == "addr_2")) ∧
      l'.countP (fun a => a.isDefault) ≤ 1) :=
  ⟨rfl, by decide, rfl, by decide,
   C1_setDefaultAddress_at_most_one_default _ _ _ rfl (by decide) rfl (by decide)⟩

/-- C2: the claim says a first successful `login` immediately yields
`isAuthenticated() = true`.  Evaluating the code as shipped at the failing
input: `loginUser("user@example.com", "SecurePass123")` against the built-in
mock succeeds and stores the token `mock_jwt_token_<Date.now()>` — but that
string has no `.`, `parseJwt` throws on it, and `isAuthenticated()` is
`false` at every instant, contradicting the claim (and the module's own
use of `isAuthenticated` to gate the logged-in UI). -/
theorem C2_login_succeeds_but_isAuthenticated_false (nowMs : ℚ) :
    (AuthService.loginUser {} "user@example.com" "SecurePass123"
        (.resolved (AuthService.mockLoginResponse 1700000000000))).1 =
      .ok AuthService.mockLoginUser ∧
    (AuthService.loginUser {} "user@example.com" "SecurePass123"
        (.resolved (AuthService.mockLoginResponse 1700000000000))).2.1.authToken =
      some "mock_jwt_token_1700000000000" ∧
    AuthService.isAuthenticated
      (AuthService.loginUser {} "user@example.com" "SecurePass123"
        (.resolved (AuthService.mockLoginResponse 1700000000000))).2.1 nowMs = false := by
  refine ⟨by rfl, by rfl, ?_⟩
  rfl

/-- C3: `isAuthenticated()` is recomputed from the stored token and the
clock on every call, and is true exactly when a token is stored whose
decoded `exp` claim is strictly greater than the current time
(`Date.now() / 1000`); any other state — no token, undecodable token,
missing or non-numeric expiry, expiry ≤ now — yields false. -/
theorem C3_isAuthenticated_iff_expiry_in_future (s : Storage) (nowMs : ℚ) :
    AuthService.isAuthenticated s nowMs = true ↔
      ∃ token e, s.authToken = some token ∧ decodedExpiry token = some e ∧
        e > nowMs / 1000 := by
  cases h : s.authToken with
  | none => simp [AuthService.isAuthenticated, h]
  | some token =>
    by_cases he : token = ""
    · subst he
      simp only [AuthService.isAuthenticated, h, if_true, Option.some.injEq]
      constructor
      · intro hfalse
        cases hfalse
      · rintro ⟨t, e, ht, hd, _⟩
        cases ht
        rw [show decodedExpiry "" = none from rfl] at hd
        cases hd
    · cases hd : decodedExpiry token with
      | none =>
        simp only [AuthService.isAuthenticated, h, if_neg he, hd, Option.some.injEq]
        constructor
        · intro hfalse
          cases hfalse
        · rintro ⟨t, e, rfl, hd2, _⟩
          rw [hd] at hd2
          cases hd2
      | some e =>
        simp only [AuthService.isAuthenticated, h, if_neg he, hd, decide_eq_true_eq,
          Option.some.injEq]
        constructor
        · intro hgt
          exact ⟨token, e, rfl, hd, hgt⟩
        · rintro ⟨t, e2, rfl, hd2, hgt⟩
          rw [hd] at hd2
          cases hd2
          exact hgt

/-- C10: `isAuthenticated` is total — a stored token on which `parseJwt`
fails (not three dot-separated segments, payload not valid base64, payload
not valid JSON…) makes it return false, the decode failure being caught
rather than propagated.  Totality itself is by construction: the embedding
is a total function and every JS throw inside the try is mapped to the
caught branch. -/
theorem C10_isAuthenticated_false_on_undecodable (s : Storage) (token : String) (nowMs : ℚ)
    (h : s.authToken = some token) (hdec : parseJwt token = none) :
    AuthService.isAuthenticated s nowMs = false := by
  have hexp : decodedExpiry token = none := by
    rw [decodedExpiry, hdec]
    rfl
  by_cases he : token = ""
  · simp [AuthService.isAuthenticated, h, he]
  · simp [AuthService.isAuthenticated, h, if_neg he, hexp]

/-- C10 witness: a stored token with no dot at all (so no payload segment)
is rejected by `parseJwt` and `isAuthenticated` returns false. -/
theorem C10_isAuthenticated_false_on_undecodable_witness :
    ({ authToken := some "not-a-jwt" } : Storage).authToken = some "not-a-jwt" ∧
    parseJwt "not-a-jwt" = none ∧
    AuthService.isAuthenticated { authToken := some "not-a-jwt" } 1700000000000 = false :=
  ⟨rfl, rfl, C10_isAuthenticated_false_on_undecodable _ _ _ rfl rfl⟩

/-- C4 counterexample: with a token and a cached user record both present, a
gateway exception (the unreachable-network case) makes `getUserProfile`
rethrow the error instead of serving the cached record — refuting the
claim's "unreachable or unsuccessful" disjunction. -/
theorem C4_counterexample_unreachable_throws_despite_cache :
    (UserService.getUserProfile
        { authToken := some "tok", userData := some AuthService.mockLoginUser }
        (.thrown "Network request failed")).1 =
      .error "Network request failed" := rfl

/-- C4 (amended): with a token present, `getUserProfile` overwrites the
cached/session user record and returns the fresh one on gateway success;
on an unsuccessful gateway *response* it falls back to the cached record
with the staleness marker when one exists, and raises an error only when no
cache exists; but a gateway *exception* (unreachable transport) propagates
as an error even when a cache exists, leaving the cache unread. -/
theorem C4_getUserProfile_stale_fallback (s : Storage)
    (htok : truthy (AuthService.getToken s) = true) :
    (∀ resp : UserService.ProfileResponse, resp.success = true →
      (UserService.getUserProfile s (.resolved resp)).1 = .ok { user := resp.user } ∧
      (UserService.getUserProfile s (.resolved resp)).2.1 =
        AuthService.setUserData s resp.user) ∧
    (∀ resp : UserService.ProfileResponse, resp.success = false → ∀ u, s.userData = some u →
      (UserService.getUserProfile s (.resolved resp)).1 = .ok { user := u, cached := true } ∧
      (UserService.getUserProfile s (.resolved resp)).2.1 = s) ∧
    (∀ resp : UserService.ProfileResponse, resp.success = false → s.userData = none →
      ∃ msg, (UserService.getUserProfile s (.resolved resp)).1 = .error msg) ∧
    (∀ msg, (UserService.getUserProfile s (.thrown msg)).1 = .error msg ∧
      (UserService.getUserProfile s (.thrown msg)).2.1 = s) := by
  refine ⟨?_, ?_, ?_, ?_⟩
  · intro resp hok
    constructor <;> simp [UserService.getUserProfile, htok, hok]
  · intro resp hfail u hu
    constructor <;>
      simp [UserService.getUserProfile, htok, hfail, AuthService.getCurrentUser, hu]
  · intro resp hfail hu
    refine ⟨messageOr resp.message "Failed to fetch profile", ?_⟩
    simp [UserService.getUserProfile, htok, hfail, AuthService.getCurrentUser, hu]
  · intro msg
    constructor <;> simp [UserService.getUserProfile, htok]

/-- C4 witness: Scenario E with an unsuccessful gateway response — the
cached record comes back with the staleness marker instead of a throw. -/
theorem C4_getUserProfile_stale_fallback_witness :
    truthy (AuthService.getToken
      { authToken := some "tok", userData := some AuthService.mockLoginUser }) = true ∧
    (UserService.getUserProfile
        { authToken := some "tok", userData := some AuthService.mockLoginUser }
        (.resolved { success := false })).1 =
      .ok { user := AuthService.mockLoginUser, cached := true } :=
  ⟨rfl,
   ((C4_getUserProfile_stale_fallback
       { authToken := some "tok", userData := some AuthService.mockLoginUser } rfl).2.1
     { success := false } rfl AuthService.mockLoginUser rfl).1⟩

/-- C5: when the gateway rejects the stored refresh token, `refreshToken`
clears the whole session state (both tokens, cached user and pending
marker), signals redirection to the login entry point, and a subsequent
`isAuthenticated` is false at every instant — no half-valid session
survives a failed refresh. -/
theorem C5_refresh_rejection_tears_down_session (s : Storage)
    (resp : AuthService.RefreshResponse)
    (href : truthy (AuthService.getRefreshToken s) = true)
    (hrej : resp.success = false) :
    (∃ msg, (AuthService.refreshToken s (.resolved resp)).1 = .error msg) ∧
    (AuthService.refreshToken s (.resolved resp)).2.1 = AuthService.clearAuthData s ∧
    (AuthService.refreshToken s (.resolved resp)).2.1.authToken = none ∧
    (AuthService.refreshToken s (.resolved resp)).2.1.refreshToken = none ∧
    (AuthService.refreshToken s (.resolved resp)).2.1.userData = none ∧
    (AuthService.refreshToken s (.resolved resp)).2.2.redirectedTo = some "/login.html" ∧
    ∀ nowMs : ℚ,
      AuthService.isAuthenticated (AuthService.refreshToken s (.resolved resp)).2.1 nowMs =
        false := by
  have hres : AuthService.refreshToken s (.resolved resp) =
      (.error "Token refresh failed", AuthService.clearAuthData s,
       { gatewayCalled := true, redirectedTo := some "/login.html" }) := by
    simp [AuthService.refreshToken, href, hrej]
  rw [hres]
  refine ⟨⟨_, rfl⟩, rfl, ?_, ?_, ?_, rfl, ?_⟩
  · simp [AuthService.clearAuthData]
  · simp [AuthService.clearAuthData]
  · simp [AuthService.clearAuthData]
  · intro nowMs
    simp [AuthService.isAuthenticated, AuthService.clearAuthData]

/-- C5 witness: Scenario F at a concrete session — after the rejected
refresh, `isAuthenticated` is false. -/
theorem C5_refresh_rejection_tears_down_session_witness :
    truthy (AuthService.getRefreshToken
      ({ authToken := some "tok", refreshToken := some "rt" } : Storage)) = true ∧
    ({ success := false } : AuthService.RefreshResponse).success = false ∧
    AuthService.isAuthenticated
      (AuthService.refreshToken { authToken := some "tok", refreshToken := some "rt" }
        (.resolved { success := false })).2.1 1700000000000 = false :=
  ⟨rfl, rfl,
   (C5_refresh_rejection_tears_down_session
       { authToken := some "tok", refreshToken := some "rt" } { success := false }
       rfl rfl).2.2.2.2.2.2 1700000000000⟩

/-- C6: any registration input with an empty required field, an email the
email regex rejects, or a password missing one of the strength criteria
(length ≥ 8, an upper-case letter, a lower-case letter, a digit) fails with
a validation error before the gateway is called, leaving storage — in
particular the pending-registration marker — untouched. -/
theorem C6_register_validates_before_gateway (s : Storage) (d : AuthService.RegisterInput)
    (gw : GatewayOutcome AuthService.RegisterResponse)
    (hbad : d.email = "" ∨ d.password = "" ∨ d.firstName = "" ∨ d.lastName = "" ∨
      AuthService.validateEmail d.email = false ∨
      ¬ (8 ≤ d.password.toList.length ∧ d.password.toList.any isUpperAlpha = true ∧
         d.password.toList.any isLowerAlpha = true ∧
         d.password.toList.any isDigitChar = true)) :
    (∃ msg, (AuthService.registerUser s d gw).1 = .error msg) ∧
    (AuthService.registerUser s d gw).2.1 = s ∧
    (AuthService.registerUser s d gw).2.2.gatewayCalled = false := by
  by_cases hA : (d.email = "" || d.password = "" || d.firstName = "" || d.lastName = "") = true
  · refine ⟨⟨"All required fields must be filled", ?_⟩, ?_, ?_⟩ <;>
      · unfold AuthService.registerUser
        rw [if_pos hA]
  · by_cases hB : ¬ (AuthService.validateEmail d.email = true)
    · refine ⟨⟨"Invalid email format", ?_⟩, ?_, ?_⟩ <;>
        · unfold AuthService.registerUser
          rw [if_neg hA, if_pos hB]
    · by_cases hC : ¬ (AuthService.validatePassword d.password = true)
      · refine
          ⟨⟨"Password must be at least 8 characters with uppercase, lowercase, and number",
            ?_⟩, ?_, ?_⟩ <;>
          · unfold AuthService.registerUser
            rw [if_neg hA, if_neg hB, if_pos hC]
      · exfalso
        rw [not_not] at hB hC
        simp only [Bool.or_eq_true, decide_eq_true_eq, not_or] at hA
        obtain ⟨⟨⟨he, hp⟩, hf⟩, hl⟩ := hA
        rcases hbad with h | h | h | h | h | h
        · exact he h
        · exact hp h
        · exact hf h
        · exact hl h
        · rw [h] at hB
          cases hB
        · apply h
          simp only [AuthService.validatePassword, Bool.and_eq_true, decide_eq_true_eq] at hC
          exact ⟨hC.1.1.1.1, hC.1.2, hC.1.1.2, hC.2⟩

/-- C6 witness: Scenario B — a malformed email and a weak password are
rejected before any gateway interaction and no pending marker appears. -/
theorem C6_register_validates_before_gateway_witness :
    AuthService.validateEmail "bad-email" = false ∧
    (∃ msg, (AuthService.registerUser {}
        { email := "bad-email", password := "weak", firstName := "A", lastName := "B" }
        (.resolved { success := true, userId := "user_9" })).1 = .error msg) ∧
    (AuthService.registerUser {}
        { email := "bad-email", password := "weak", firstName := "A", lastName := "B" }
        (.resolved { success := true, userId := "user_9" })).2.1 = ({} : Storage) ∧
    (AuthService.registerUser {}
        { email := "bad-email", password := "weak", firstName := "A", lastName := "B" }
        (.resolved { success := true, userId := "user_9" })).2.2.gatewayCalled = false :=
  ⟨rfl,
   C6_register_validates_before_gateway {}
     { email := "bad-email", password := "weak", firstName := "A", lastName := "B" }
     (.resolved { success := true, userId := "user_9" })
     (Or.inr (Or.inr (Or.inr (Or.inr (Or.inl rfl)))))⟩

/-- C7 counterexample: the OTP code "abcdef" is not a string of six digits,
yet `verifyOtp` does not fail validation — the source checks only the
length — and reaches the gateway, succeeding against the mock; moreover the
success path dispatches no event at all, against the claimed single
`SessionEstablished` emission. -/
theorem C7_counterexample_six_letters_reach_gateway :
    (AuthService.verifyOtp { pendingRegistration := some ("user@example.com", "user_1") }
        "user_1" "abcdef"
        (.resolved (AuthService.mockVerifyOtpResponse 1700000000000))).1 =
      .ok (AuthService.mockVerifyOtpUser 1700000000000) ∧
    (AuthService.verifyOtp { pendingRegistration := some ("user@example.com", "user_1") }
        "user_1" "abcdef"
        (.resolved (AuthService.mockVerifyOtpResponse 1700000000000))).2.2.gatewayCalled =
      true ∧
    (AuthService.verifyOtp { pendingRegistration := some ("user@example.com", "user_1") }
        "user_1" "abcdef"
        (.resolved (AuthService.mockVerifyOtpResponse 1700000000000))).2.2.events = [] :=
  ⟨rfl, rfl, rfl⟩

/-- C7 (amended): `verifyOtp` rejects, before any gateway call, exactly the
codes failing its shape check — empty or of length other than six; digit
content is not checked client-side.  A length-6 code with a successful
gateway response stores the token pair and the user record, clears the
pending-registration marker, and dispatches no event (in particular no
`SessionEstablished`). -/
theorem C7_verifyOtp_length_gate_and_success (s : Storage) (userId otp : String)
    (resp : AuthService.SessionResponse) (huid : userId ≠ "") :
    (otp.length ≠ 6 →
      ∀ gw, (∃ msg, (AuthService.verifyOtp s userId otp gw).1 = .error msg) ∧
        (AuthService.verifyOtp s userId otp gw).2.1 = s ∧
        (AuthService.verifyOtp s userId otp gw).2.2.gatewayCalled = false) ∧
    (otp.length = 6 → resp.success = true →
      (AuthService.verifyOtp s userId otp (.resolved resp)).1 = .ok resp.user ∧
      (AuthService.verifyOtp s userId otp (.resolved resp)).2.1.pendingRegistration = none ∧
      (AuthService.verifyOtp s userId otp (.resolved resp)).2.1.authToken =
        some resp.token ∧
      (AuthService.verifyOtp s userId otp (.resolved resp)).2.1.userData =
        some resp.user ∧
      (AuthService.verifyOtp s userId otp (.resolved resp)).2.2.events = []) := by
  constructor
  · intro hlen gw
    by_cases ho : otp = ""
    · refine ⟨⟨"User ID and OTP are required", ?_⟩, ?_, ?_⟩ <;>
        simp [AuthService.verifyOtp, huid, ho]
    · refine ⟨⟨"OTP must be 6 digits", ?_⟩, ?_, ?_⟩ <;>
        simp [AuthService.verifyOtp, huid, ho, hlen]
  · intro hlen hok
    have ho : otp ≠ "" := by
      intro hempty
      rw [hempty] at hlen
      cases hlen
    refine ⟨?_, ?_, ?_, ?_, ?_⟩ <;>
      simp [AuthService.verifyOtp, huid, ho, hlen, hok, AuthService.setUserData,
        AuthService.setTokens]

/-- C7 witness: Scenario C — "12345" (five digits) is rejected before the
gateway; "123456" against a successful response yields the user with zero
events dispatched. -/
theorem C7_verifyOtp_length_gate_and_success_witness :
    ("user_1" : String) ≠ "" ∧
    ("12345" : String).length ≠ 6 ∧
    (∃ msg, (AuthService.verifyOtp {} "user_1" "12345"
        (.resolved (AuthService.mockVerifyOtpResponse 0))).1 = .error msg) ∧
    ("123456" : String).length = 6 ∧
    (AuthService.verifyOtp {} "user_1" "123456"
        (.resolved (AuthService.mockVerifyOtpResponse 0))).1 =
      .ok (AuthService.mockVerifyOtpUser 0) ∧
    (AuthService.verifyOtp {} "user_1" "123456"
        (.resolved (AuthService.mockVerifyOtpResponse 0))).2.2.events = [] :=
  ⟨by decide, by decide,
   ((C7_verifyOtp_length_gate_and_success {} "user_1" "12345"
       (AuthService.mockVerifyOtpResponse 0) (by decide)).1 (by decide) _).1,
   by decide,
   ((C7_verifyOtp_length_gate_and_success {} "user_1" "123456"
       (AuthService.mockVerifyOtpResponse 0) (by decide)).2 (by decide) rfl).1,
   ((C7_verifyOtp_length_gate_and_success {} "user_1" "123456"
       (AuthService.mockVerifyOtpResponse 0) (by decide)).2 (by decide) rfl).2.2.2.2⟩

/-- C8: every profile/address operation fails immediately with the
not-authenticated error when no truthy access token is stored: the output
triple is exactly the early-exit triple — the error, the unchanged storage
(so no cache write), and the empty trace (so no gateway call and no
event). -/
theorem C8_operations_require_token (s : Storage)
    (h : truthy (AuthService.getToken s) = false) :
    (∀ gw, UserService.getUserProfile s gw = (.error "User not authenticated", s, {})) ∧
    (∀ d gw, UserService.updateUserProfile s d gw =
      (.error "User not authenticated", s, {})) ∧
    (∀ f gw, UserService.updateProfilePicture s f gw =
      (.error "User not authenticated", s, {})) ∧
    (∀ pw gw1 gw2, UserService.deleteAccount s pw gw1 gw2 =
      (.error "User not authenticated", s, {})) ∧
    (∀ gw, UserService.listAddresses s gw = (.error "User not authenticated", s, {})) ∧
    (∀ i gw, UserService.getAddress s i gw = (.error "User not authenticated", s, {})) ∧
    (∀ d gw, UserService.addAddress s d gw = (.error "User not authenticated", s, {})) ∧
    (∀ i d gw, UserService.updateAddress s i d gw =
      (.error "User not authenticated", s, {})) ∧
    (∀ i gw, UserService.deleteAddress s i gw = (.error "User not authenticated", s, {})) ∧
    (∀ i gw, UserService.setDefaultAddress s i gw =
      (.error "User not authenticated", s, {})) := by
  refine ⟨?_, ?_, ?_, ?_, ?_, ?_, ?_, ?_, ?_, ?_⟩ <;> intros <;>
    simp [UserService.getUserProfile, UserService.updateUserProfile,
      UserService.updateProfilePicture, UserService.deleteAccount,
      UserService.listAddresses, UserService.getAddress, UserService.addAddress,
      UserService.updateAddress, UserService.deleteAddress,
      UserService.setDefaultAddress, h]

/-- C8 witness: with empty storage, `setDefaultAddress` (one of the ten
guarded operations) exits with the not-authenticated error, storage and
trace untouched. -/
theorem C8_operations_require_token_witness :
    truthy (AuthService.getToken ({} : Storage)) = false ∧
    UserService.setDefaultAddress {} "addr_2" (.resolved { success := true }) =
      (.error "User not authenticated", {}, {}) :=
  ⟨rfl,
   (C8_operations_require_token {} rfl).2.2.2.2.2.2.2.2.2 "addr_2"
     (.resolved { success := true })⟩

/-- C9: `logoutUser` called when already logged out (no tokens, no cached
user, no pending marker) does not throw, touches neither the gateway nor
any stored field — the storage comes back exactly as it was — and merely
dispatches the session-ended event: logout is idempotent. -/
theorem C9_logout_idempotent_when_logged_out (s : Storage)
    (gw : GatewayOutcome AuthService.BasicResponse)
    (h1 : s.authToken = none) (h2 : s.refreshToken = none)
    (h3 : s.userData = none) (h4 : s.pendingRegistration = none) :
    AuthService.logoutUser s gw = (.ok (), s, { events := ["userLoggedOut"] }) := by
  have hclear : AuthService.clearAuthData s = s := by
    cases s
    simp_all [AuthService.clearAuthData]
  simp [AuthService.logoutUser, AuthService.getToken, truthy, h1, hclear]

/-- C9 witness: logging out of the empty session returns success and the
same empty storage. -/
theorem C9_logout_idempotent_when_logged_out_witness :
    ({} : Storage).authToken = none ∧
    AuthService.logoutUser {} (.resolved { success := true }) =
      (.ok (), {}, { events := ["userLoggedOut"] }) :=
  ⟨rfl,
   C9_logout_idempotent_when_logged_out {} (.resolved { success := true })
     rfl rfl rfl rfl⟩
